import Mathlib

/-!
Shallow embedding of `src/FooBarPkg/build.py`, a PUG-style EDK-II build
front-end.  The pure rendering helpers (`gen_section`, the manifest
builders) become Lean functions; the filesystem touched by `write_file`
becomes an explicit state record; the child process of `LaunchCommand`
becomes an abstract behaviour fed to the modelled reader loop; the
`build` pipeline becomes a trace model parametrised by the outcomes of
its external steps (git, make, the UDK build).

The embedding follows Python 3 semantics (the script advertises
"Python 2.7 or Python 3.x"; Python 2 reached end of life in 2020):
`sorted` raises `TypeError` on an `int`/`str` mix, a plain `str` has
`__iter__`, and the `Popen` pipes are binary (no `text`,
`universal_newlines` or `encoding` argument), so `readline` yields
`bytes` and `bytes.rstrip('\n')` with a `str` separator raises
`TypeError`.
-/

/-- Python value appearing in section bodies: an `int`, a `str`, or a
2-tuple of strings (the shape used for override entries).  This is the
value universe the configuration descriptors actually use. -/
inductive PyVal
  | int (i : Int)
  | str (s : String)
  | pair (a b : String)
deriving DecidableEq, BEq

/-- Python `str()` of a modelled value; `str` of a 2-tuple shows the
`repr` of its elements, hence the quotes (`\x27`). -/
def pyStr : PyVal → String
  | .int i => toString i
  | .str s => s
  | .pair a b => "(\x27" ++ a ++ "\x27, \x27" ++ b ++ "\x27)"

/-- Python 3 `<` on modelled values: defined within one kind (numeric for
ints, lexicographic for strings, componentwise for tuples), and a
`TypeError` (`none`) across kinds — Python 3 does not compare `int`
with `str`. -/
def pyLt : PyVal → PyVal → Option Bool
  | .int a, .int b => some (decide (a < b))
  | .str a, .str b => some (decide (a.toList < b.toList))
  | .pair a b, .pair c d =>
    some (decide (a.toList < c.toList) || (decide (a = c) && decide (b.toList < d.toList)))
  | _, _ => none

/-- Insert into an already-sorted list using Python comparison; errors on
the first incomparable pair, as Python `sorted` does. -/
def pyInsert (a : PyVal) : List PyVal → Except Unit (List PyVal)
  | [] => .ok [a]
  | b :: bs =>
    match pyLt a b with
    | none => .error ()
    | some true => .ok (a :: b :: bs)
    | some false =>
      match pyInsert a bs with
      | .error e => .error e
      | .ok r => .ok (b :: r)

/-- Stable insertion sort over Python values, accumulator form. -/
def pySortAux : List PyVal → List PyVal → Except Unit (List PyVal)
  | acc, [] => .ok acc
  | acc, x :: xs =>
    match pyInsert x acc with
    | .error e => .error e
    | .ok acc2 => pySortAux acc2 xs

/-- Model of Python `sorted`: ascending, stable, `TypeError` on a body
mixing kinds. -/
def pySorted (l : List PyVal) : Except Unit (List PyVal) :=
  pySortAux [] l

/-- Insertion of a string into a sorted list of strings (total: string
comparison never raises). -/
def strInsert (a : String) : List String → List String
  | [] => [a]
  | b :: bs => if a.toList < b.toList then a :: b :: bs else b :: strInsert a bs

/-- Accumulator form of string insertion sort. -/
def strSortAux : List String → List String → List String
  | acc, [] => acc
  | acc, x :: xs => strSortAux (strInsert x acc) xs

/-- Lexicographic (string-form) sort, the order the spec describes. -/
def strSort (l : List String) : List String :=
  strSortAux [] l

/-- A section body as `gen_section` receives it: Python `None`, a
list/tuple, a set, a dict (association list in insertion order), a
plain string, or some other (non-iterable) object of which only the
truthiness matters. -/
inductive Items
  | pynone
  | list (l : List PyVal)
  | set (l : List PyVal)
  | dict (l : List (PyVal × PyVal))
  | pystr (s : String)
  | obj (truthy : Bool)
deriving DecidableEq

/-- Python truthiness of a body (`if items:`). -/
def Items.truthy : Items → Bool
  | .pynone => false
  | .list l => !l.isEmpty
  | .set l => !l.isEmpty
  | .dict l => !l.isEmpty
  | .pystr s => !(s == "")
  | .obj b => b

/-- The check `isinstance(items, (tuple, list))` — false for sets and
strings. -/
def Items.isListOrTuple : Items → Bool
  | .list _ => true
  | _ => false

/-- The check `isinstance(items, dict)`. -/
def Items.isDict : Items → Bool
  | .dict _ => true
  | _ => false

/-- Python iteration over a body: a list yields its elements, a set its
elements (in the representation order), a dict its keys, a string its
characters; `None` and other objects are not iterable (`TypeError`). -/
def iterItems : Items → Except Unit (List PyVal)
  | .list l => .ok l
  | .set l => .ok l
  | .dict l => .ok (l.map (fun p => p.1))
  | .pystr s => .ok (s.toList.map (fun c => PyVal.str (String.singleton c)))
  | .pynone => .error ()
  | .obj _ => .error ()

/-- Keys of a dict body (only meaningful on `.dict`). -/
def Items.dictKeys : Items → List PyVal
  | .dict l => l.map (fun p => p.1)
  | _ => []

/-- Lookup `items[d]` in a dict body; keys obtained from the same dict
are always present, so the default is never observed. -/
def Items.dictGet : Items → PyVal → PyVal
  | .dict l, k => (((l.find? (fun p => p.1 == k)).map (fun p => p.2)).getD (PyVal.str ""))
  | _, _ => PyVal.str ""

/-- Translation of `gen_section(items, override, section, sep)`
(build.py lines 99-109): emit `"\n[section]"` when the name is
non-empty, then, for a list/tuple body (or when `override` is `list` or
`tuple`), one line `"  %s" % str(d)` per element of `sorted(items)`;
for a dict body one line `"  %s %s %s" % (str(d), sep, str(items[d]))`
per key of `sorted(items)`; any other truthy body renders the header
only.  `sorted` may raise `TypeError` (the `Except` error). -/
def gen_section (items : Items) (overrideList : Bool) (sect : String) (sep : String) :
    Except Unit (List String) :=
  let hdr := if sect = "" then ([] : List String) else ["\n[" ++ sect ++ "]"]
  if items.truthy then
    if items.isListOrTuple || overrideList then
      match iterItems items with
      | .error e => .error e
      | .ok l =>
        match pySorted l with
        | .error e => .error e
        | .ok s => .ok (hdr ++ s.map (fun d => "  " ++ pyStr d))
    else if items.isDict then
      match pySorted items.dictKeys with
      | .error e => .error e
      | .ok ks =>
        .ok (hdr ++ ks.map (fun d => "  " ++ pyStr d ++ " " ++ sep ++ " " ++ pyStr (items.dictGet d)))
    else .ok hdr
  else .ok hdr

/-- Rendering exactly as claim C1 words it (the comparison definition
for the refinement check): every body element is stringified first and
the body lines are sorted lexicographically on those string forms; a
sequence or set body always yields one indented line per item. -/
def gen_section_claim (items : Items) (sect : String) (sep : String) : List String :=
  let hdr := if sect = "" then ([] : List String) else ["\n[" ++ sect ++ "]"]
  match items with
  | .list l => hdr ++ (strSort (l.map pyStr)).map (fun d => "  " ++ d)
  | .set l => hdr ++ (strSort (l.map pyStr)).map (fun d => "  " ++ d)
  | .dict prs =>
      hdr ++ (strSort (prs.map (fun p => pyStr p.1))).map
        (fun k => "  " ++ k ++ " " ++ sep ++ " " ++ pyStr (Items.dictGet (.dict prs) (.str k)))
  | _ => hdr

/-- Model of the filesystem state `write_file` touches: file contents,
per-file modification counters (bumped by every actual write, so an
unchanged counter means the mtime was preserved), and which directories
exist. -/
structure FS where
  files : String → Option String
  mtime : String → Nat
  dirs : String → Bool

/-- Writing a file: replace its bytes and bump its modification
counter. -/
def FS.writeF (fs : FS) (p : String) (c : String) : FS :=
  { files := fun x => if x = p then some c else fs.files x,
    mtime := fun x => if x = p then fs.mtime x + 1 else fs.mtime x,
    dirs := fs.dirs }

/-- `os.makedirs`: create the directory (ancestors are abstracted; no
other code observes them). -/
def FS.mkdirs (fs : FS) (d : String) : FS :=
  { files := fs.files, mtime := fs.mtime,
    dirs := fun x => if x = d then true else fs.dirs x }

/-- Boolean prefix test on strings (computes on the character lists). -/
def strStartsWith (p pre : String) : Bool :=
  pre.toList.isPrefixOf p.toList

/-- Boolean suffix test on strings (computes on the character lists). -/
def strEndsWith (p suf : String) : Bool :=
  suf.toList.reverse.isPrefixOf p.toList.reverse

/-- `os.path.dirname` for POSIX paths: everything up to the last slash,
with trailing slashes stripped unless the result is all slashes (the
filesystem root). -/
def dirname (p : String) : String :=
  let head := ((p.toList.reverse.dropWhile (fun c => c ≠ '/')).reverse)
  if head.isEmpty then ""
  else if head.all (fun c => c = '/') then String.mk head
  else String.mk ((head.reverse.dropWhile (fun c => c = '/')).reverse)

/-- The `content` argument of `write_file`: either a plain string or a
list of line strings. -/
inductive PyContent
  | str (s : String)
  | lines (l : List String)

/-- The `hasattr(content, '__iter__')` normalisation under Python 3:
a plain `str` also has `__iter__`, so it too is `'\n'.join`-ed — 
character by character. -/
def joinIter : PyContent → String
  | .str s => String.intercalate "\n" (s.toList.map (fun c => String.singleton c))
  | .lines l => String.intercalate "\n" l

/-- The bytes `write_file` proposes to write: the normalised content
with the signature prepended when one is supplied. -/
def proposedContent (content : PyContent) (signature : String) : String :=
  if signature = "" then joinIter content else signature ++ joinIter content

/-- Translation of `write_file(path, content, signature)` (build.py
lines 61-81): normalise the content, prepend the signature; if the
parent directory is missing, create it and write; otherwise, if the
file exists with exactly the proposed bytes, return without touching
the filesystem; otherwise overwrite. -/
def write_file (fs : FS) (path : String) (content : PyContent) (signature : String) : FS :=
  let c2 := proposedContent content signature
  let d := dirname path
  if fs.dirs d then
    if fs.files path = some c2 then fs
    else fs.writeF path c2
  else (fs.mkdirs d).writeF path c2

/-- `os.path.join` for POSIX paths, as used by `abs_path`. -/
def pathJoin (a b : String) : String :=
  if strStartsWith b "/" then b
  else if a = "" then b
  else if strEndsWith a "/" then a ++ b
  else a ++ "/" ++ b

/-- Translation of `abs_path(sub_dir, base_dir)` (build.py lines 56-58). -/
def abs_path (sub_dir base_dir : String) : String :=
  if strStartsWith sub_dir "/" then sub_dir else pathJoin base_dir sub_dir

/-- The fixed generated-file banner `default_pug_signature`. -/
def default_pug_signature : String :=
  "#\n# This is automatically created by PUG.\n#\n"

/-- A value stored under a key of a component/platform descriptor dict:
a string (e.g. `path`), a boolean (e.g. `update`), a section body, or a
list of `(key, value)` 2-tuples (the shape of `LibraryClasses`,
`PcdsFixedAtBuild` and `BuildOptions` entries). -/
inductive CompVal
  | vstr (s : String)
  | vbool (b : Bool)
  | vitems (it : Items)
  | vpairs (l : List (String × String))
deriving DecidableEq

/-- Python truthiness of a descriptor value. -/
def CompVal.truthy : CompVal → Bool
  | .vstr s => !(s == "")
  | .vbool b => b
  | .vitems it => it.truthy
  | .vpairs l => !l.isEmpty

/-- A descriptor value seen as a `gen_section` body: a list of 2-tuples
is a Python list of tuples, a string stays a string, a boolean is a
non-iterable object. -/
def CompVal.toItems : CompVal → Items
  | .vstr s => .pystr s
  | .vbool b => .obj b
  | .vitems it => it
  | .vpairs l => .list (l.map (fun d => PyVal.pair d.1 d.2))

/-- A component descriptor: a Python dict, modelled as its key/value
pairs in insertion order (keys unique, as in a dict). -/
structure Component where
  entries : List (String × CompVal)
deriving DecidableEq

/-- Dict lookup `compc[k]` / `compc.get(k)`. -/
def Component.get (c : Component) (k : String) : Option CompVal :=
  (c.entries.find? (fun p => p.1 == k)).map (fun p => p.2)

/-- `compc.get(k, default)`. -/
def Component.getVD (c : Component) (k : String) (d : CompVal) : CompVal :=
  (c.get k).getD d

/-- `compc.get(k, "")` read as a string (the descriptors store paths as
strings). -/
def Component.getStrD (c : Component) (k : String) (d : String) : String :=
  match c.get k with
  | some (.vstr s) => s
  | _ => d

/-- Truthiness of `comp.get("update", False)`. -/
def Component.updateFlag (c : Component) : Bool :=
  match c.get "update" with
  | some v => v.truthy
  | none => false

/-- Membership test `k in compc.keys()`. -/
def Component.hasKey (c : Component) (k : String) : Bool :=
  (c.get k).isSome

/-- The `(key, value)` tuples stored under an override category. -/
def Component.pairs (c : Component) (k : String) : List (String × String) :=
  match c.get k with
  | some (.vpairs l) => l
  | _ => []

/-- The separator chosen per override category in `platform_dsc`:
`'|' if ov in {"LibraryClasses", "PcdsFixedAtBuild"} else '='`. -/
def ovSep (ov : String) : String :=
  if ov = "LibraryClasses" ∨ ov = "PcdsFixedAtBuild" then "|" else "="

/-- The lines one override category contributes: the `<Category>`
sub-header, then `"      %s %s %s" % (d[0], sep, d[1])` for each tuple
`d`, in the stored (insertion) order. -/
def ovLines (c : Component) (ov : String) : List String :=
  ("    <" ++ ov ++ ">") ::
    (c.pairs ov).map (fun d => "      " ++ d.1 ++ " " ++ ovSep ov ++ " " ++ d.2)

/-- `pfile[-1] += suffix`: append to the last line. -/
def appendLast (ls : List String) (suffix : String) : List String :=
  match ls with
  | [] => []
  | [a] => [a ++ suffix]
  | a :: rest => a :: appendLast rest suffix

/-- One iteration of the `for ov in ovs` loop of `platform_dsc`: on the
first category open the `{` block on the component's path line, then
append that category's lines. -/
def comp_dsc_step (c : Component) (st : List String × Bool) (ov : String) :
    List String × Bool :=
  let st1 := if st.2 then st else (appendLast st.1 " \x7b", true)
  (st1.1 ++ ovLines c ov, st1.2)

/-- The lines one component contributes to the `[Components]` section
(build.py lines 331-345).  `ovOrder` is the iteration order of the set
`overrides.intersection(set(compc.keys()))`: Python iterates this set
in hash order, which for strings depends on `PYTHONHASHSEED`, so the
order is a run-dependent permutation of the three category names. -/
def comp_dsc_chunk (c : Component) (ovOrder : List String) : List String :=
  let ovs := ovOrder.filter c.hasKey
  let res := ovs.foldl (comp_dsc_step c) (["  " ++ c.getStrD "path" ""], false)
  if res.2 then res.1 ++ ["  \x7d"] else res.1

/-- A platform descriptor: its `path`, the truthiness of
`platform.get("update", False)`, and its `Defines` body. -/
structure Platform where
  path : String
  update : Bool
  defines : Items

/-- The full line list `pfile` of `platform_dsc` (build.py lines
325-347): the rendered `[Defines]` section, the `[Components]` header,
then each component's chunk. -/
def platform_pfile (p : Platform) (comps : List Component) (ovOrder : List String) :
    Except Unit (List String) :=
  match gen_section p.defines false "Defines" "=" with
  | .error e => .error e
  | .ok a =>
    match gen_section .pynone false "Components" "=" with
    | .error e => .error e
    | .ok b =>
      .ok (a ++ b ++ (comps.map (fun c => comp_dsc_chunk c ovOrder)).flatten)

/-- Translation of `platform_dsc(platform, components, workspace)`
(build.py lines 318-348): print the resolved path, skip when the
`update` flag is falsy, otherwise build `pfile` and write it with the
PUG signature.  Returns the printed lines and either the new
filesystem or the propagated `TypeError` from `sorted`. -/
def platform_dsc (p : Platform) (comps : List Component) (ws : String)
    (ovOrder : List String) (fs : FS) : List String × Except Unit FS :=
  let dsc_path := abs_path p.path ws
  let pr := ["PLATFORM_DSC = " ++ dsc_path]
  if ¬ p.update then (pr, .ok fs)
  else
    match platform_pfile p comps ovOrder with
    | .error e => (pr, .error e)
    | .ok pfile => (pr, .ok (write_file fs dsc_path (.lines pfile) default_pug_signature))

/-- The errors the manifest builders can raise: the `TypeError` coming
out of `sorted`, or the explicit
`Exception('INF must contain [Defines] section.')`. -/
inductive PyErr
  | typeError
  | configError (msg : String)
deriving DecidableEq

/-- The recognised INF section base names (build.py lines 353-356). -/
def inf_sections : List String :=
  ["Sources", "Packages", "LibraryClasses", "Protocols", "Ppis",
   "Guids", "FeaturePcd", "Pcd", "BuildOptions", "Depex", "UserExtensions"]

/-- `s.split('.')[0]`: the section base name before an architecture
qualifier. -/
def baseName (s : String) : String :=
  (s.splitOn ".").headD ""

/-- Python `v[0]` on a body element: first character of a string, first
component of a tuple; an `int` is not subscriptable. -/
def pyIndex0 : PyVal → Except Unit PyVal
  | .str s =>
    match s.toList with
    | [] => .error ()
    | c :: _ => .ok (.str (String.singleton c))
  | .pair a _ => .ok (.str a)
  | .int _ => .error ()

/-- Python iteration over a descriptor value (`for v in comp[s]`). -/
def cvalIter : CompVal → Except Unit (List PyVal)
  | .vpairs l => .ok (l.map (fun d => PyVal.pair d.1 d.2))
  | .vitems it => iterItems it
  | .vstr s => .ok (s.toList.map (fun c => PyVal.str (String.singleton c)))
  | .vbool _ => .error ()

/-- The list `[v[0] for v in comp[s]]` fed to `gen_section` for a
`LibraryClasses` INF section. -/
def libClassItems (v : CompVal) : Except Unit Items :=
  match cvalIter v with
  | .error e => .error e
  | .ok l =>
    match l.mapM pyIndex0 with
    | .error e => .error e
    | .ok firsts => .ok (.list firsts)

/-- The `for s in comp` section loop of `component_inf` (build.py lines
367-375): iterate the descriptor's keys in insertion order, skip keys
whose base name is not a recognised section, special-case
`LibraryClasses` (keep only `v[0]` of each entry, render with
`override=list`), and render every other section directly. -/
def inf_body : List (String × CompVal) → Except Unit (List String)
  | [] => .ok []
  | (s, v) :: rest =>
    let s0 := baseName s
    if ¬ inf_sections.contains s0 then inf_body rest
    else if s0 = "LibraryClasses" then
      match libClassItems v with
      | .error e => .error e
      | .ok it =>
        match gen_section it true s "=" with
        | .error e => .error e
        | .ok ls =>
          match inf_body rest with
          | .error e => .error e
          | .ok r => .ok (ls ++ r)
    else
      match gen_section v.toItems false s "=" with
      | .error e => .error e
      | .ok ls =>
        match inf_body rest with
        | .error e => .error e
        | .ok r => .ok (ls ++ r)

/-- The full `cfile` of one component: the `[Defines]` section rendered
first (build.py line 366), then the section loop. -/
def inf_cfile (comp : Component) : Except Unit (List String) :=
  match gen_section (comp.getVD "Defines" (.vstr "")).toItems false "Defines" "=" with
  | .error e => .error e
  | .ok a =>
    match inf_body comp.entries with
    | .error e => .error e
    | .ok b => .ok (a ++ b)

/-- Translation of `component_inf(components, workspace)` (build.py
lines 351-376): for each descriptor print the resolved path, skip when
`update` is falsy, raise a configuration error when `Defines` is
missing or empty (aborting the whole loop with nothing written for
this descriptor), otherwise render the INF and write it with the PUG
signature.  Returns the printed lines, the final filesystem, and the
raised error if any. -/
def component_inf : List Component → String → FS → List String × FS × Option PyErr
  | [], _, fs => ([], fs, none)
  | comp :: rest, ws, fs =>
    let inf_path := abs_path (comp.getStrD "path" "") ws
    let pr := "COMPONENT: " ++ inf_path
    if ¬ comp.updateFlag then
      let r := component_inf rest ws fs
      (pr :: r.1, r.2.1, r.2.2)
    else if ¬ (comp.getVD "Defines" (.vstr "")).truthy then
      ([pr], fs, some (.configError "INF must contain [Defines] section."))
    else
      match inf_cfile comp with
      | .error _ => ([pr], fs, some .typeError)
      | .ok cfile =>
        let fs2 := write_file fs inf_path (.lines cfile) default_pug_signature
        let r := component_inf rest ws fs2
        (pr :: r.1, r.2.1, r.2.2)

/-- The call `Line.rstrip('\n')` at build.py line 131 under Python 3:
`subprocess.Popen` at line 158 is given no `text`, `universal_newlines`
or `encoding` argument, so its pipes are binary and `readline` returns
`bytes`; `bytes.rstrip` with a `str` separator raises
`TypeError: a bytes-like object is required, not 'str'` whatever the
line holds.  The argument is the line's byte content. -/
def bytesRstripNL (_line : String) : Except Unit String :=
  .error ()

/-- Translation of the `ReadMessage(From, To, ExitFlag)` reader loop of
`LaunchCommand` (build.py lines 126-133) run in one thread: keep
reading lines; for a non-empty line evaluate `Line.rstrip('\n')` and
append the result; stop at end-of-file (an empty read) or when the
exit flag is set (`LaunchCommand` creates the flag, clears it and
never sets it).  Result: the buffer the thread appended, and whether
the thread died with an exception.  Under Python 3 the `rstrip` call
raises `TypeError` (see `bytesRstripNL`), so the first non-empty line
kills the thread with nothing appended; the append-and-continue arm is
the source's intent but is unreachable. -/
def ReadMessage (exitFlag : Bool) : List String → List String × Bool
  | [] => ([], false)
  | l :: ls =>
    if l = "" then ([], false)
    else
      match bytesRstripNL l with
      | .error _ => ([], true)
      | .ok line =>
        let r := if exitFlag then (([] : List String), false) else ReadMessage exitFlag ls
        (line :: r.1, r.2)

/-- The behaviour of one launched child: either `subprocess.Popen`
itself raises (the `except` clause re-raises, so the exception
propagates to the caller), or a process runs, emits the given raw
`readline` units on each stream and exits with the given code. -/
inductive ChildBehavior
  | popenRaises
  | runs (returncode : Int) (stdout stderr : List String)

/-- How the POSIX shell (the code launches with `shell=True`) resolves
the program of a command line: a found program runs with its own
behaviour; a missing program makes the shell itself exit 127 after a
diagnostic on stderr; a non-executable one likewise with 126. -/
inductive ProgramResolution
  | resolved (rc : Int) (out err : List String)
  | notFound
  | notExecutable

/-- The child the shell presents to `LaunchCommand` for each program
resolution. -/
def shellChild : ProgramResolution → ChildBehavior
  | .resolved rc out err => .runs rc out err
  | .notFound => .runs 127 [] ["sh: 1: command not found\n"]
  | .notExecutable => .runs 126 [] ["sh: 1: Permission denied\n"]

/-- Translation of `LaunchCommand(Command, WorkingDir, verbose)`
(build.py lines 121-189): if `Popen` raises, the exception propagates
(`.error`); in verbose mode the child inherits the parent's streams
and the returned texts are empty; otherwise the two reader threads run
`ReadMessage` on stdout and stderr and are both joined before the
function returns — a thread killed by the `TypeError` is joined just
the same, its exception swallowed by the threading machinery — and
the call returns the child's exit code with each buffer joined by
newlines.  The model delivers the whole stream and returns; a real
child whose undrained output exceeds the pipe capacity would block
`Proc.wait()` forever instead. -/
def LaunchCommand (child : ChildBehavior) (verbose : Bool) :
    Except Unit (Int × String × String) :=
  match child with
  | .popenRaises => .error ()
  | .runs rc outL errL =>
    if verbose then .ok (rc, "", "")
    else
      .ok (rc, String.intercalate "\n" (ReadMessage false outL).1,
           String.intercalate "\n" (ReadMessage false errL).1)

/-- The observable actions of one `build()` run, in program order. -/
inductive Step
  | codetreeStep
  | envvarsStep
  | conffilesStep
  | gentargetStep
  | basetoolsStep
  | platformdscStep
  | componentinfStep
  | udkbuildStep
deriving DecidableEq

/-- Trace model of `build()` (build.py lines 379-428).  The outcomes of
the external interactions are parameters: `ct` is what `codetree`
returns, `genErr` the error manifest generation raises (if any), `bt`
and `ub` what `LaunchCommand` returns for the BaseTools build and the
UDK build.  The result is the returned exit status together with the
ordered trace of steps the run performed, or the propagated exception. -/
def build (ct : Int) (genErr : Option PyErr) (bt ub : Int × String × String) :
    Except PyErr (Int × List Step) :=
  if ct ≠ 0 then .ok (ct, [.codetreeStep])
  else
    let pre := [Step.codetreeStep, .envvarsStep, .conffilesStep, .gentargetStep, .basetoolsStep]
    if bt.1 ≠ 0 then .ok (bt.1, pre)
    else
      match genErr with
      | some e => .error e
      | none => .ok (ub.1, pre ++ [.platformdscStep, .componentinfStep, .udkbuildStep])

/-- First non-zero exit code of a pipeline, or zero. -/
def firstNonzero : List Int → Int
  | [] => 0
  | x :: xs => if x ≠ 0 then x else firstNonzero xs

/-- An empty filesystem: no files, no directories, all counters zero. -/
def fs0 : FS :=
  { files := fun _ => none, mtime := fun _ => 0, dirs := fun _ => false }

/-- A filesystem whose directory `w` exists and whose file `w/f`
contains exactly `"X"`. -/
def fsW : FS :=
  { files := fun p => if p = "w/f" then some "X" else none,
    mtime := fun _ => 0,
    dirs := fun d => decide (d = "w") }

/-- A component descriptor with no `update` key and no `Defines`
section. -/
def cNoDef : Component :=
  { entries := [ ("path", CompVal.vstr "a.inf")] }

/-- A component descriptor selected for generation (`update` truthy)
but lacking a `Defines` section. -/
def cDefless : Component :=
  { entries := [ ("path", CompVal.vstr "b.inf"), ("update", CompVal.vbool true)] }

/-- A component carrying two override categories whose tuples are
deliberately not in sorted order. -/
def cOvr : Component :=
  { entries :=
    [ ("path", CompVal.vstr "Foo.inf"),
      ("LibraryClasses", CompVal.vpairs [ ("B", "b.inf"), ("A", "a.inf")]),
      ("BuildOptions", CompVal.vpairs [ ("K", "V")])] }

/-- A platform descriptor selected for generation with an empty
`Defines` body. -/
def pOvr : Platform :=
  { path := "P.dsc", update := true, defines := Items.dict [] }

/-- A platform descriptor whose `update` flag is down. -/
def pSkip : Platform :=
  { path := "P.dsc", update := false, defines := Items.dict [] }

/-- One possible hash-order of the override category set. -/
def ovOrderA : List String :=
  ["LibraryClasses", "PcdsFixedAtBuild", "BuildOptions"]

/-- Another possible hash-order of the same set (its reverse). -/
def ovOrderB : List String :=
  ["BuildOptions", "PcdsFixedAtBuild", "LibraryClasses"]

theorem strInsert_perm (a : String) (l : List String) : (strInsert a l).Perm (a :: l) := by
  induction l with
  | nil => simp [strInsert]
  | cons b bs ih =>
    by_cases hab : a.toList < b.toList
    · rw [strInsert, if_pos hab]
    · rw [strInsert, if_neg hab]
      exact (ih.cons b).trans (List.Perm.swap a b bs)

theorem strInsert_sorted (a : String) (l : List String) (h : l.Sorted (· ≤ ·)) :
    (strInsert a l).Sorted (· ≤ ·) := by
  induction l with
  | nil => simp [strInsert]
  | cons b bs ih =>
    rw [List.sorted_cons] at h
    by_cases hab : a.toList < b.toList
    · have hab2 : a < b := String.lt_iff_toList_lt.mpr hab
      rw [strInsert, if_pos hab, List.sorted_cons]
      refine ⟨?_, ?_⟩
      · intro x hx
        rcases List.mem_cons.mp hx with rfl | hx2
        · exact le_of_lt hab2
        · exact le_trans (le_of_lt hab2) (h.1 x hx2)
      · rw [List.sorted_cons]
        exact h
    · have hab2 : ¬ a < b := fun hlt => hab (String.lt_iff_toList_lt.mp hlt)
      rw [strInsert, if_neg hab, List.sorted_cons]
      refine ⟨?_, ih h.2⟩
      intro x hx
      rcases List.mem_cons.mp ((strInsert_perm a bs).mem_iff.mp hx) with rfl | hx2
      · exact le_of_not_lt hab2
      · exact h.1 x hx2

theorem strSortAux_perm (xs : List String) :
    ∀ acc : List String, (strSortAux acc xs).Perm (acc ++ xs) := by
  induction xs with
  | nil => intro acc; simp [strSortAux]
  | cons x xs ih =>
    intro acc
    exact (ih _).trans
      (((strInsert_perm x acc).append_right xs).trans List.perm_middle.symm)

theorem strSortAux_sorted (xs : List String) :
    ∀ acc : List String, acc.Sorted (· ≤ ·) → (strSortAux acc xs).Sorted (· ≤ ·) := by
  induction xs with
  | nil => intro acc h; exact h
  | cons x xs ih => intro acc h; exact ih _ (strInsert_sorted x acc h)

theorem strSort_perm (l : List String) : (strSort l).Perm l :=
  strSortAux_perm l []

theorem strSort_sorted (l : List String) : (strSort l).Sorted (· ≤ ·) :=
  strSortAux_sorted l [] (by simp)

theorem strSort_eq_of_perm (l l2 : List String) (h : l.Perm l2) : strSort l = strSort l2 :=
  List.eq_of_perm_of_sorted ((strSort_perm l).trans (h.trans (strSort_perm l2).symm))
    (strSort_sorted l) (strSort_sorted l2)

theorem pyInsert_str (a : String) (m : List String) :
    pyInsert (.str a) (m.map PyVal.str) = .ok ((strInsert a m).map PyVal.str) := by
  induction m with
  | nil => rfl
  | cons b bs ih =>
    by_cases hab : a.data < b.data
    · simp [pyInsert, pyLt, strInsert, String.toList, hab]
    · simp [pyInsert, pyLt, strInsert, String.toList, hab, ih]

theorem pySortAux_str (xs : List String) :
    ∀ acc : List String,
      pySortAux (acc.map PyVal.str) (xs.map PyVal.str) = .ok ((strSortAux acc xs).map PyVal.str) := by
  induction xs with
  | nil => intro acc; rfl
  | cons x xs ih =>
    intro acc
    simp [pySortAux, pyInsert_str, strSortAux, ih]

theorem pySorted_str (l : List String) :
    pySorted (l.map PyVal.str) = .ok ((strSort l).map PyVal.str) :=
  pySortAux_str l []

theorem gen_section_str_list (l : List String) (sect sep : String) :
    gen_section (.list (l.map PyVal.str)) false sect sep =
      .ok ((if sect = "" then ([] : List String) else ["\n[" ++ sect ++ "]"]) ++
        (strSort l).map (fun x => "  " ++ x)) := by
  cases l with
  | nil => simp [gen_section, Items.truthy, strSort, strSortAux]
  | cons a as =>
    unfold gen_section
    simp only [Items.truthy, Items.isListOrTuple, iterItems, List.map_cons, List.isEmpty_cons,
      Bool.not_false, Bool.true_or, if_true]
    rw [show (PyVal.str a :: as.map PyVal.str) = (a :: as).map PyVal.str from rfl, pySorted_str]
    simp [List.map_map, Function.comp, pyStr]

theorem gen_section_str_dict (prs : List (PyVal × PyVal)) (ks : List String) (sect sep : String)
    (hk : prs.map Prod.fst = ks.map PyVal.str) :
    gen_section (.dict prs) false sect sep =
      .ok ((if sect = "" then ([] : List String) else ["\n[" ++ sect ++ "]"]) ++
        (strSort ks).map
          (fun k => "  " ++ k ++ " " ++ sep ++ " " ++ pyStr (Items.dictGet (.dict prs) (.str k)))) := by
  cases prs with
  | nil =>
    have hks : ks = [] := by
      cases ks with
      | nil => rfl
      | cons k ks2 => simp at hk
    subst hks
    simp [gen_section, Items.truthy, strSort, strSortAux]
  | cons p ps =>
    have hne : ks ≠ [] := by
      intro h
      rw [h] at hk
      simp at hk
    unfold gen_section
    simp only [Items.truthy, Items.isListOrTuple, Items.isDict, List.isEmpty_cons,
      Bool.not_false, Bool.false_or, if_true, if_false, Bool.or_false]
    rw [show Items.dictKeys (.dict (p :: ps)) = (p :: ps).map Prod.fst from rfl, hk, pySorted_str]
    simp [List.map_map, Function.comp, pyStr]

theorem ReadMessage_buffer_empty (exitFlag : Bool) (L : List String) :
    (ReadMessage exitFlag L).1 = [] := by
  cases L with
  | nil => rfl
  | cons l ls =>
    by_cases hl : l = ""
    · simp [ReadMessage, hl]
    · simp [ReadMessage, hl, bytesRstripNL]

theorem comp_dsc_fold_true (c : Component) (ovs : List String) :
    ∀ acc : List String,
      ovs.foldl (comp_dsc_step c) (acc, true) =
        (acc ++ (ovs.map (ovLines c)).flatten, true) := by
  induction ovs with
  | nil => intro acc; simp
  | cons ov ovs ih =>
    intro acc
    rw [List.foldl_cons, show comp_dsc_step c (acc, true) ov = (acc ++ ovLines c ov, true) from rfl,
      ih]
    simp

theorem write_file_dirs (fs : FS) (p : String) (c : PyContent) (s : String) :
    (write_file fs p c s).dirs (dirname p) = true := by
  unfold write_file
  by_cases h : fs.dirs (dirname p)
  · by_cases h2 : fs.files p = some (proposedContent c s)
    · simp [h, h2]
    · simp [h, h2, FS.writeF]
  · simp [h, FS.writeF, FS.mkdirs]

theorem write_file_files (fs : FS) (p : String) (c : PyContent) (s : String) :
    (write_file fs p c s).files p = some (proposedContent c s) := by
  unfold write_file
  by_cases h : fs.dirs (dirname p)
  · by_cases h2 : fs.files p = some (proposedContent c s)
    · simp [h, h2]
    · simp [h, h2, FS.writeF]
  · simp [h, FS.writeF, FS.mkdirs]

theorem write_file_skip (fs : FS) (p : String) (c : PyContent) (s : String)
    (hd : fs.dirs (dirname p) = true) (hf : fs.files p = some (proposedContent c s)) :
    write_file fs p c s = fs := by
  unfold write_file
  simp [hd, hf]

/-- C1 (counterexample): `gen_section` sorts the raw items before
stringifying, so an integer body comes out in numeric order, not in
lexicographic order of the string forms (`sorted([10, 2])` is
`[2, 10]`, yet `"10" < "2"`); a body mixing an `int` and a `str`
raises `TypeError` instead of being stringified before sorting; and a
set body (no `override`) renders no item lines at all.
`gen_section_claim` renders what the claim describes. -/
theorem gen_section_not_stringform_sorted :
    gen_section (.list [PyVal.int 10, PyVal.int 2]) false "S" "=" = .ok ["\n[S]", "  2", "  10"]
    ∧ gen_section_claim (.list [PyVal.int 10, PyVal.int 2]) "S" "=" = ["\n[S]", "  10", "  2"]
    ∧ gen_section_claim (.list [PyVal.int 10, PyVal.int 2]) "S" "=" ≠ ["\n[S]", "  2", "  10"]
    ∧ gen_section (.list [PyVal.int 1, PyVal.str "a"]) false "S" "=" = .error ()
    ∧ gen_section_claim (.list [PyVal.int 1, PyVal.str "a"]) "S" "=" = ["\n[S]", "  1", "  a"]
    ∧ gen_section (.set [PyVal.str "b", PyVal.str "a"]) false "S" "=" = .ok ["\n[S]"]
    ∧ gen_section_claim (.set [PyVal.str "b", PyVal.str "a"]) "S" "=" = ["\n[S]", "  a", "  b"] :=
  ⟨rfl, rfl, by decide, rfl, rfl, rfl, rfl⟩

/-- C1 (amended): with a non-empty section name `gen_section` emits the
`"\n[name]"` header element (a blank line then the bracketed name once
the lines are newline-joined), and for bodies whose items/keys are all
strings — the case the descriptors use — the body lines are sorted
lexicographically on the string forms, are a permutation of the input,
and the rendering is independent of the body's insertion order; a
mapping body renders one `key sep value` line per key. -/
theorem gen_section_sorted_render (l ks : List String) (prs : List (PyVal × PyVal))
    (sect sep : String) (hk : prs.map Prod.fst = ks.map PyVal.str) :
    gen_section (.list (l.map PyVal.str)) false sect sep =
      .ok ((if sect = "" then ([] : List String) else ["\n[" ++ sect ++ "]"]) ++
        (strSort l).map (fun x => "  " ++ x))
    ∧ (strSort l).Sorted (· ≤ ·)
    ∧ (strSort l).Perm l
    ∧ (∀ l2 : List String, l.Perm l2 →
        gen_section (.list (l2.map PyVal.str)) false sect sep =
          gen_section (.list (l.map PyVal.str)) false sect sep)
    ∧ gen_section (.dict prs) false sect sep =
        .ok ((if sect = "" then ([] : List String) else ["\n[" ++ sect ++ "]"]) ++
          (strSort ks).map
            (fun k => "  " ++ k ++ " " ++ sep ++ " " ++ pyStr (Items.dictGet (.dict prs) (.str k))))
    ∧ (strSort ks).Sorted (· ≤ ·)
    ∧ (strSort ks).Perm ks := by
  refine ⟨gen_section_str_list l sect sep, strSort_sorted l, strSort_perm l, ?_,
    gen_section_str_dict prs ks sect sep hk, strSort_sorted ks, strSort_perm ks⟩
  intro l2 h
  rw [gen_section_str_list, gen_section_str_list, strSort_eq_of_perm l l2 h]

/-- Witness for the amended C1 at concrete inputs: a list body given in
unsorted order and a mapping body given in unsorted key order. -/
theorem gen_section_sorted_render_witness :
    gen_section (.list [PyVal.str "b", PyVal.str "a"]) false "Defines" "=" =
      .ok ["\n[Defines]", "  a", "  b"]
    ∧ gen_section (.dict [ (PyVal.str "K2", PyVal.int 5), (PyVal.str "K1", PyVal.str "v")])
        false "Defines" "=" =
      .ok ["\n[Defines]", "  K1 = v", "  K2 = 5"]
    ∧ gen_section (.list [PyVal.str "a", PyVal.str "b"]) false "Defines" "=" =
        gen_section (.list [PyVal.str "b", PyVal.str "a"]) false "Defines" "=" := by
  have h := gen_section_sorted_render ["b", "a"] ["K2", "K1"]
    [ (PyVal.str "K2", PyVal.int 5), (PyVal.str "K1", PyVal.str "v")] "Defines" "=" rfl
  exact ⟨h.1, h.2.2.2.2.1, h.2.2.2.1 ["a", "b"] (by decide)⟩

/-- C2: if the destination file exists with exactly the proposed bytes
(signature prepended), `write_file` returns the filesystem unchanged —
no write, no mtime bump; in every case the call leaves the file holding
the proposed bytes and a missing parent directory gets created; hence
writing the same content twice makes the second call the identity. -/
theorem write_file_idempotent (fs : FS) (path : String) (content : PyContent)
    (signature : String) :
    (fs.dirs (dirname path) = true →
      fs.files path = some (proposedContent content signature) →
      write_file fs path content signature = fs)
    ∧ (write_file fs path content signature).files path =
        some (proposedContent content signature)
    ∧ (fs.dirs (dirname path) = false →
        (write_file fs path content signature).dirs (dirname path) = true)
    ∧ write_file (write_file fs path content signature) path content signature =
        write_file fs path content signature :=
  ⟨fun hd hf => write_file_skip fs path content signature hd hf,
    write_file_files fs path content signature,
    fun _ => write_file_dirs fs path content signature,
    write_file_skip _ path content signature (write_file_dirs fs path content signature)
      (write_file_files fs path content signature)⟩

/-- Witness for C2: a file already holding the proposed bytes is left
untouched, and a double write to a fresh path is idempotent. -/
theorem write_file_idempotent_witness :
    write_file fsW "w/f" (.lines ["X"]) "" = fsW
    ∧ (write_file fs0 "w/g" (.lines ["Y"]) "sig").dirs (dirname "w/g") = true
    ∧ write_file (write_file fs0 "w/g" (.lines ["Y"]) "sig") "w/g" (.lines ["Y"]) "sig" =
        write_file fs0 "w/g" (.lines ["Y"]) "sig" :=
  ⟨(write_file_idempotent fsW "w/f" (.lines ["X"]) "").1 rfl rfl,
    (write_file_idempotent fs0 "w/g" (.lines ["Y"]) "sig").2.2.1 rfl,
    (write_file_idempotent fs0 "w/g" (.lines ["Y"]) "sig").2.2.2⟩

/-- C3 (code bug): under the script's Python 3 runtime the `Popen`
pipes are binary, so `Line.rstrip('\n')` raises `TypeError` on the
first non-empty line, each reader thread dies having appended nothing,
and every non-verbose invocation returns the child's exit code with
both captured texts empty — for the scripted child writing two stdout
lines and one stderr line the claim expects `"hello\nworld"` and
`"oops"`, but the code computes `""` and `""`. -/
theorem LaunchCommand_capture_broken :
    (∀ (rc : Int) (outL errL : List String),
      LaunchCommand (.runs rc outL errL) false = .ok (rc, "", ""))
    ∧ LaunchCommand (.runs 0 ["hello\n", "world\n"] ["oops\n"]) false = .ok (0, "", "")
    ∧ ReadMessage false ["hello\n", "world\n"] = ([], true)
    ∧ ("" : String) ≠ "hello\nworld" ∧ ("" : String) ≠ "oops" := by
  refine ⟨?_, ?_, rfl, by decide, by decide⟩
  · intro rc outL errL
    simp [LaunchCommand, ReadMessage_buffer_empty]
    rfl
  · simp [LaunchCommand, ReadMessage_buffer_empty]
    rfl

/-- C4 (counterexample): a descriptor lacking `Defines` whose `update`
flag is absent (falsy) does not fail at all — `component_inf` skips it
before the `Defines` check, returning no error. -/
theorem component_inf_skips_nodefines_noupdate :
    component_inf [cNoDef] "/w" fs0 = (["COMPONENT: /w/a.inf"], fs0, none)
    ∧ (component_inf [cNoDef] "/w" fs0).2.2 = none :=
  ⟨rfl, rfl⟩

/-- C4 (amended): for a descriptor selected for generation (`update`
truthy) whose `Defines` section is missing or empty, `component_inf`
raises the configuration error after reporting the path, writes
nothing (the filesystem is returned unchanged), and processes no
further descriptor. -/
theorem component_inf_defines_error (comp : Component) (rest : List Component) (ws : String)
    (fs : FS) (hu : comp.updateFlag = true)
    (hd : (comp.getVD "Defines" (.vstr "")).truthy = false) :
    component_inf (comp :: rest) ws fs =
      (["COMPONENT: " ++ abs_path (comp.getStrD "path" "") ws], fs,
        some (.configError "INF must contain [Defines] section.")) := by
  unfold component_inf
  simp [hu, hd]

/-- Witness for the amended C4: a concrete `update=true` descriptor
with no `Defines` key. -/
theorem component_inf_defines_error_witness :
    component_inf [cDefless] "/w" fs0 =
      (["COMPONENT: /w/b.inf"], fs0,
        some (.configError "INF must contain [Defines] section.")) :=
  component_inf_defines_error cDefless [] "/w" fs0 rfl rfl

/-- C5: when a component carries at least one override category, its
chunk in the platform manifest is the path line opened with a brace,
then for each carried category (in the set-iteration order) the
`<Category>` sub-header followed by one `key sep value` line per
stored tuple in exactly the stored (caller-supplied) order, then the
closing brace line; the separator is `|` for `LibraryClasses` and
`PcdsFixedAtBuild` and `=` for `BuildOptions`. -/
theorem comp_dsc_chunk_shape (c : Component) (ovOrder : List String) (ov0 : String)
    (rest : List String) (h : ovOrder.filter c.hasKey = ov0 :: rest) :
    comp_dsc_chunk c ovOrder =
      ("  " ++ c.getStrD "path" "" ++ " \x7b") ::
        (((ov0 :: rest).map (ovLines c)).flatten ++ ["  \x7d"])
    ∧ (∀ ov, ovLines c ov =
        ("    <" ++ ov ++ ">") ::
          (c.pairs ov).map (fun d => "      " ++ d.1 ++ " " ++ ovSep ov ++ " " ++ d.2))
    ∧ ovSep "LibraryClasses" = "|" ∧ ovSep "PcdsFixedAtBuild" = "|"
    ∧ ovSep "BuildOptions" = "=" := by
  refine ⟨?_, fun ov => rfl, by decide, by decide, by decide⟩
  unfold comp_dsc_chunk
  rw [h]
  simp only [List.foldl_cons,
    show comp_dsc_step c (["  " ++ c.getStrD "path" ""], false) ov0 =
      (("  " ++ c.getStrD "path" "" ++ " \x7b") :: ovLines c ov0, true) from rfl,
    comp_dsc_fold_true]
  simp

/-- Witness for C5: a component carrying `LibraryClasses` (tuples
deliberately unsorted: `B` before `A`) and `BuildOptions`, but not
`PcdsFixedAtBuild`. -/
theorem comp_dsc_chunk_shape_witness :
    comp_dsc_chunk cOvr ovOrderA =
      ["  Foo.inf \x7b", "    <LibraryClasses>", "      B | b.inf", "      A | a.inf",
        "    <BuildOptions>", "      K = V", "  \x7d"] :=
  (comp_dsc_chunk_shape cOvr ovOrderA "LibraryClasses" ["BuildOptions"] rfl).1

/-- C6: the pipeline short-circuits — a failing code-tree acquisition
returns that status with no manifest generation, no BaseTools build and
no UDK build in the trace; a non-zero BaseTools exit is returned before
the UDK build ever appears in the trace; the UDK build only runs after
both earlier steps succeeded; and, when manifest generation does not
raise, the returned status is the first non-zero exit code of the
sequence, or zero on full success. -/
theorem build_short_circuit (ct : Int) (genErr : Option PyErr) (bt ub : Int × String × String) :
    (ct ≠ 0 → build ct genErr bt ub = .ok (ct, [.codetreeStep]))
    ∧ (ct = 0 → bt.1 ≠ 0 → build ct genErr bt ub =
        .ok (bt.1, [.codetreeStep, .envvarsStep, .conffilesStep, .gentargetStep, .basetoolsStep]))
    ∧ (ct ≠ 0 → ∀ rc tr, build ct genErr bt ub = .ok (rc, tr) →
        Step.platformdscStep ∉ tr ∧ Step.componentinfStep ∉ tr ∧
        Step.basetoolsStep ∉ tr ∧ Step.udkbuildStep ∉ tr)
    ∧ (∀ rc tr, build ct genErr bt ub = .ok (rc, tr) → Step.udkbuildStep ∈ tr →
        ct = 0 ∧ bt.1 = 0)
    ∧ (genErr = none → ∃ tr, build ct genErr bt ub = .ok (firstNonzero [ct, bt.1, ub.1], tr)) := by
  refine ⟨fun h => by simp [build, h], fun h1 h2 => by simp [build, h1, h2], ?_, ?_, ?_⟩
  · intro h rc tr heq
    simp [build, h] at heq
    obtain ⟨h1, h2⟩ := heq
    subst h2
    decide
  · intro rc tr heq hmem
    by_cases hct : ct = 0
    · by_cases hbt : bt.1 = 0
      · exact ⟨hct, hbt⟩
      · simp [build, hct, hbt] at heq
        obtain ⟨h1, h2⟩ := heq
        subst h2
        simp at hmem
    · simp [build, hct] at heq
      obtain ⟨h1, h2⟩ := heq
      subst h2
      simp at hmem
  · intro hg
    subst hg
    by_cases hct : ct = 0
    · by_cases hbt : bt.1 = 0
      · by_cases hub : ub.1 = 0
        · exact ⟨[Step.codetreeStep, .envvarsStep, .conffilesStep, .gentargetStep, .basetoolsStep,
            .platformdscStep, .componentinfStep, .udkbuildStep],
            by simp [build, firstNonzero, hct, hbt, hub]⟩
        · exact ⟨[Step.codetreeStep, .envvarsStep, .conffilesStep, .gentargetStep, .basetoolsStep,
            .platformdscStep, .componentinfStep, .udkbuildStep],
            by simp [build, firstNonzero, hct, hbt, hub]⟩
      · exact ⟨[Step.codetreeStep, .envvarsStep, .conffilesStep, .gentargetStep, .basetoolsStep],
          by simp [build, firstNonzero, hct, hbt]⟩
    · exact ⟨[Step.codetreeStep], by simp [build, firstNonzero, hct]⟩

/-- Witness for C6: a failing code-tree step (status 3) stops the run
at the first step, and a run whose only failure is the UDK build
returns that build's status. -/
theorem build_short_circuit_witness :
    build 3 none (1, "x", "y") (2, "", "") = .ok (3, [Step.codetreeStep])
    ∧ build 0 none (5, "", "") (2, "", "") =
        .ok (5, [Step.codetreeStep, .envvarsStep, .conffilesStep, .gentargetStep, .basetoolsStep])
    ∧ (Step.platformdscStep ∉ [Step.codetreeStep] ∧ Step.componentinfStep ∉ [Step.codetreeStep]
        ∧ Step.basetoolsStep ∉ [Step.codetreeStep] ∧ Step.udkbuildStep ∉ [Step.codetreeStep])
    ∧ ((0 : Int) = 0 ∧ (0 : Int) = 0)
    ∧ (∃ tr, build 0 none (0, "", "") (4, "", "") = .ok (4, tr)) := by
  refine ⟨(build_short_circuit 3 none (1, "x", "y") (2, "", "")).1 (by decide),
    (build_short_circuit 0 none (5, "", "") (2, "", "")).2.1 rfl (by decide),
    (build_short_circuit 3 none (1, "x", "y") (2, "", "")).2.2.1 (by decide) 3
      [Step.codetreeStep] ((build_short_circuit 3 none (1, "x", "y") (2, "", "")).1 (by decide)),
    (build_short_circuit 0 none (0, "", "") (4, "", "")).2.2.2.1 4
      [Step.codetreeStep, .envvarsStep, .conffilesStep, .gentargetStep, .basetoolsStep,
        .platformdscStep, .componentinfStep, .udkbuildStep] rfl (by decide),
    (build_short_circuit 0 none (0, "", "") (4, "", "")).2.2.2.2 rfl⟩

/-- C7 (code bug): with one component carrying two override categories,
two legitimate iteration orders of the category set — the order is the
hash order of a Python `str` set, which varies with `PYTHONHASHSEED`
from run to run — make `platform_dsc` produce different manifest
lines and write different bytes for the same descriptors, refuting
byte-identical output across runs. -/
theorem platform_dsc_set_order_dependent :
    (platform_pfile pOvr [cOvr] ovOrderA).toOption ≠
      (platform_pfile pOvr [cOvr] ovOrderB).toOption
    ∧ ((platform_dsc pOvr [cOvr] "/w" ovOrderA fs0).2.toOption.map
        (fun f => f.files "/w/P.dsc")) ≠
      ((platform_dsc pOvr [cOvr] "/w" ovOrderB fs0).2.toOption.map
        (fun f => f.files "/w/P.dsc"))
    ∧ ovOrderA.Perm ovOrderB :=
  ⟨by decide, by decide, by decide⟩

/-- C8 (counterexample): the command runs under `shell=True`, so a
missing executable is reported by the shell as a plain exit code 127 —
`LaunchCommand` returns exactly the same value as for a legitimate
child that exits 127 (the shell's stderr diagnostic is not even
captured, the reader thread dying on the bytes/str `TypeError`), so
there is no failure signal distinct from a non-zero exit code. -/
theorem LaunchCommand_notfound_indistinct :
    LaunchCommand (shellChild .notFound) false =
      LaunchCommand (shellChild (.resolved 127 [] ["sh: 1: command not found\n"])) false
    ∧ LaunchCommand (shellChild .notFound) false = .ok (127, "", "") :=
  ⟨rfl, rfl⟩

/-- C8 (amended): a failure of the process-creation call itself
propagates as an exception, which is distinct from any exit code; a
missing or non-executable program surfaces as the shell's exit code
127 or 126 with empty captured texts — indistinguishable in kind from
a child exiting with that code — but never reported as success. -/
theorem LaunchCommand_launch_failures_nonzero :
    LaunchCommand (shellChild .notFound) false = .ok (127, "", "")
    ∧ (127 : Int) ≠ 0
    ∧ LaunchCommand (shellChild .notExecutable) false = .ok (126, "", "")
    ∧ (126 : Int) ≠ 0
    ∧ LaunchCommand .popenRaises false = .error ()
    ∧ LaunchCommand .popenRaises true = .error () :=
  ⟨rfl, by decide, rfl, by decide, rfl, rfl⟩

/-- C9: with the `update` flag down, `platform_dsc` returns the
filesystem unchanged after printing the resolved manifest path, and
`component_inf` prints the descriptor's resolved path yet performs no
write for it, continuing with the remaining descriptors on the same
filesystem. -/
theorem update_false_skips (p : Platform) (comps : List Component) (ws : String)
    (ovOrder : List String) (fs : FS) (comp : Component) (rest : List Component)
    (hp : p.update = false) (hc : comp.updateFlag = false) :
    platform_dsc p comps ws ovOrder fs = (["PLATFORM_DSC = " ++ abs_path p.path ws], .ok fs)
    ∧ component_inf (comp :: rest) ws fs =
        (("COMPONENT: " ++ abs_path (comp.getStrD "path" "") ws) ::
            (component_inf rest ws fs).1,
          (component_inf rest ws fs).2.1, (component_inf rest ws fs).2.2) := by
  constructor
  · unfold platform_dsc
    simp [hp]
  · simp only [component_inf]
    simp [hc]

/-- Witness for C9: a skipped platform descriptor and a skipped
component descriptor, both reporting their resolved paths. -/
theorem update_false_skips_witness :
    platform_dsc pSkip [] "/w" [] fs0 = (["PLATFORM_DSC = /w/P.dsc"], .ok fs0)
    ∧ component_inf [cNoDef] "/w" fs0 = (["COMPONENT: /w/a.inf"], fs0, none) := by
  have h := update_false_skips pSkip [] "/w" [] fs0 cNoDef [] rfl rfl
  exact ⟨h.1, h.2⟩

/-- C10 (code bug): under Python 3 a plain string has `__iter__`, so
`write_file` newline-joins its characters: passing the string `"ab"`
writes the bytes `"a\nb"` while passing the line list `["ab"]` writes
`"ab"` — the two calls do not produce identical files. -/
theorem write_file_py3_string_iter :
    joinIter (.str "ab") = "a\nb"
    ∧ joinIter (.lines ["ab"]) = "ab"
    ∧ (write_file fs0 "w/f" (.str "ab") "").files "w/f" = some "a\nb"
    ∧ (write_file fs0 "w/f" (.lines ["ab"]) "").files "w/f" = some "ab"
    ∧ ("a\nb" : String) ≠ "ab" :=
  ⟨rfl, rfl, rfl, rfl, by decide⟩
